import Mathlib

/-!
Verification of the quantized integer LSTM evaluation core
(`tensorflow/lite/micro/kernels/lstm_eval_general.h`).

The development shallowly embeds the per-step gate computation
(`CalculateLstmGateInteger`), the cell-state update (`UpdateLstmCellInteger`),
the hidden-state update (`UpdateLstmHiddenInteger`), the step orchestrator
(`LstmStepInteger`) and the sequence driver (`EvalLstmInteger`).  Tensors are
flattened `List Int` buffers; machine integers are `Int` with explicit
saturation to the relevant width.  The generic numeric kernels that the core
consumes (fully-connected, elementwise multiply, saturating add, clipping) and
the `LstmStepManager` offset bookkeeping are repository code that is not part
of the staged sources; they are modelled from the specification, as their doc
comments state.  The two saturating nonlinearities (logistic, tanh) are opaque
primitives of the runtime and are carried as an explicit parameter
(`NonlinPrims`), so every theorem about the core holds for any implementation
of them.
-/

namespace tflite

/-- Saturate `x` into the closed interval from `lo` to `hi`
(the activation-bound clamp every quantized kernel ends with). -/
def clampI (lo hi x : Int) : Int := min hi (max lo x)

/-- Arithmetic right shift on mathematical integers: floor division by a
power of two, matching the C `>>` on a signed value. -/
def asr (x : Int) (n : Nat) : Int := Int.fdiv x (2 ^ n)

/-- Modelled from the spec: rounding division by a power of two, the rounding
step of a fixed-point multiplier/shift application (the gemmlowp primitive is
not under src/). -/
def roundingDivideByPOT (x : Int) (n : Nat) : Int :=
  if n = 0 then x else Int.fdiv (x + 2 ^ (n - 1)) (2 ^ n)

/-- Modelled from the spec: applying a fixed-point (multiplier, shift) pair to
an integer, `(value * multiplier) >> (31 - shift)` with rounding; the
normalized multiplier stands for a real scale in one half to one. -/
def multiplyByQuantizedMultiplier (x mult shift : Int) : Int :=
  if 0 ≤ 31 - shift then roundingDivideByPOT (x * mult) (31 - shift).toNat
  else x * mult * 2 ^ (shift - 31).toNat

/-- Per-tensor fully-connected parameter set: zero points, the fixed-point
multiplier/shift and the saturation bounds of the output type
(`FullyConnectedParams` of the runtime). -/
structure FullyConnectedParams where
  input_offset : Int
  output_multiplier : Int
  output_shift : Int
  output_offset : Int
  quantized_activation_min : Int
  quantized_activation_max : Int
deriving DecidableEq

/-- Elementwise-multiplication parameter set (`ArithmeticParams` of the
runtime): input/output zero points, fixed-point multiplier/shift and the
saturation bounds of the output type. -/
structure ArithmeticParams where
  input1_offset : Int
  input2_offset : Int
  output_offset : Int
  output_multiplier : Int
  output_shift : Int
  quantized_activation_min : Int
  quantized_activation_max : Int
deriving DecidableEq

/-- Gate parameters: one fully-connected parameter set for the input-to-gate
projection and one for the recurrent-to-gate projection. -/
structure GateParameters where
  input_fc_params : FullyConnectedParams
  recurrent_fc_params : FullyConnectedParams
deriving DecidableEq

/-- Modelled from the spec: one output element of the reference
`FullyConnectedGeneral` kernel (not under src/): accumulate
`(input + input_offset) * weight` over the depth, add the optional bias, apply
the fixed-point multiplier/shift, add the output zero point and saturate. -/
def fcOutputElement (p : FullyConnectedParams) (input_depth : Nat)
    (input : List Int) (row : List Int) (biasv : Int) (b : Nat) : Int :=
  clampI p.quantized_activation_min p.quantized_activation_max
    (p.output_offset +
      multiplyByQuantizedMultiplier
        ((List.range input_depth).foldl
          (fun s i => s + (input.getD (b * input_depth + i) 0 + p.input_offset) * row.getD i 0)
          0 + biasv)
        p.output_multiplier p.output_shift)

/-- Modelled from the spec: the reference `FullyConnectedGeneral` kernel (not
under src/), a fixed-point matrix-multiply-plus-optional-bias projection of a
`[n_batch, input_depth]` input by a `[output_depth, input_depth]` weight
matrix. -/
def FullyConnectedGeneral (p : FullyConnectedParams) (n_batch input_depth output_depth : Nat)
    (input : List Int) (weights : List (List Int)) (bias : Option (List Int)) : List Int :=
  (List.range (n_batch * output_depth)).map (fun idx =>
    fcOutputElement p input_depth input (weights.getD (idx % output_depth) [])
      (match bias with
       | some bs => bs.getD (idx % output_depth) 0
       | none => 0)
      (idx / output_depth))

/-- Reference definition for claim C10: the same projection with the bias term
absent altogether (spec: the recurrent-path projection carries no bias). -/
def FullyConnectedNoBias (p : FullyConnectedParams) (n_batch input_depth output_depth : Nat)
    (input : List Int) (weights : List (List Int)) : List Int :=
  (List.range (n_batch * output_depth)).map (fun idx =>
    fcOutputElement p input_depth input (weights.getD (idx % output_depth) []) 0
      (idx / output_depth))

/-- Modelled from the spec: one element of the reference `MulElementwise`
kernel (not under src/): add the input zero points, multiply, apply the
fixed-point multiplier/shift, add the output zero point and saturate. -/
def mulElementwiseOne (p : ArithmeticParams) (a b : Int) : Int :=
  clampI p.quantized_activation_min p.quantized_activation_max
    (p.output_offset +
      multiplyByQuantizedMultiplier ((a + p.input1_offset) * (b + p.input2_offset))
        p.output_multiplier p.output_shift)

/-- Modelled from the spec: the reference `MulElementwise` kernel (not under
src/), a fixed-point elementwise multiply of `n` elements. -/
def MulElementwise (n : Nat) (p : ArithmeticParams) (in1 in2 : List Int) : List Int :=
  (List.range n).map (fun i => mulElementwiseOne p (in1.getD i 0) (in2.getD i 0))

/-- Modelled from the spec: the reference `MulElementwiseGeneral` kernel (not
under src/); same contract as `MulElementwise`, used for the output-path
multiply into the hidden state. -/
def MulElementwiseGeneral (n : Nat) (p : ArithmeticParams) (in1 in2 : List Int) : List Int :=
  (List.range n).map (fun i => mulElementwiseOne p (in1.getD i 0) (in2.getD i 0))

/-- Modelled from the spec: one element of the `CwiseAdd` kernel (not under
src/): the add is performed in the cell state's native 16-bit integer width,
saturating at its bounds. -/
def satAddCell (a b : Int) : Int := clampI (-32768) 32767 (a + b)

/-- Modelled from the spec: the `CwiseAdd` kernel (not under src/), an
elementwise saturating add in the cell state's native integer width. -/
def CwiseAdd (a b : List Int) : List Int := List.zipWith satAddCell a b

/-- Modelled from the spec: the `CwiseClipping` kernel (not under src/),
symmetric clipping of every value into `[-clip, clip]`. -/
def CwiseClipping (v : List Int) (clip : Int) : List Int :=
  v.map (fun x => min clip (max (-clip) x))

/-- The fused-activation kinds of the runtime's `TfLiteFusedActivation`. -/
inductive TfLiteFusedActivation where
  | kTfLiteActNone
  | kTfLiteActRelu
  | kTfLiteActReluN1To1
  | kTfLiteActRelu6
  | kTfLiteActTanh
  | kTfLiteActSignBit
  | kTfLiteActSigmoid
deriving DecidableEq

/-- The two saturating fixed-point nonlinearities the core dispatches to
(`reference_integer_ops::Logistic` and `reference_integer_ops::Tanh`); opaque
primitives of the runtime, carried as an explicit parameter so that every
theorem holds for any implementation.  `tanhFn` takes the input left-shift
amount the core hands to the tanh primitive. -/
structure NonlinPrims where
  logistic : List Int → List Int
  tanhFn : Int → List Int → List Int

/-- Dispatch of a fused-activation kind to its nonlinearity as the gate
computation performs it: logistic for sigmoid, tanh (zero input shift) for
tanh, and a fatal assertion (modelled as `none`) for every other kind. -/
def activationApply (prims : NonlinPrims) (a : TfLiteFusedActivation) (v : List Int) :
    Option (List Int) :=
  match a with
  | .kTfLiteActSigmoid => some (prims.logistic v)
  | .kTfLiteActTanh => some (prims.tanhFn 0 v)
  | _ => none

/-- Sequence geometry of one LSTM invocation (`LstmSizeInfo`): traversal
order, batch count, time steps and the input/state dimensions. -/
structure LstmSizeInfo where
  time_major : Bool
  batch_size : Nat
  time_steps : Nat
  input_dimension : Nat
  state_dimension : Nat
deriving DecidableEq

/-- Modelled from the spec: the leading dimension of `InputShape`/`StateShape`
of `LstmStepManager` (method bodies not under src/): the whole batch in
time-major mode, a single batch element otherwise. -/
def stateBatch (sz : LstmSizeInfo) : Nat := if sz.time_major then sz.batch_size else 1

/-- Flat element count of `StateShape`, the size every per-step state slice
and scratch buffer has. -/
def stateFlatSize (sz : LstmSizeInfo) : Nat := stateBatch sz * sz.state_dimension

/-- Step position of `LstmStepManager`: current time/batch and the derived
element offsets into the input, output, hidden-state and cell-state
buffers. -/
structure LstmStepManager where
  current_time : Nat := 0
  current_batch : Nat := 0
  input_offset : Nat := 0
  output_offset : Nat := 0
  hidden_state_offset : Nat := 0
  cell_state_offset : Nat := 0
deriving DecidableEq

namespace LstmStepManager

/-- Modelled from the spec: `LstmStepManager::UpdateTime` (body not under
src/): advance the time position; the input and output offsets advance by one
step's worth of data — a whole batch row in time-major mode, a single batch
element otherwise. -/
def UpdateTime (sz : LstmSizeInfo) (m : LstmStepManager) : LstmStepManager :=
  let input_step := if sz.time_major then sz.input_dimension * sz.batch_size
                    else sz.input_dimension
  let output_step := if sz.time_major then sz.state_dimension * sz.batch_size
                     else sz.state_dimension
  { m with
    current_time := m.current_time + 1
    input_offset := m.input_offset + input_step
    output_offset := m.output_offset + output_step }

/-- Modelled from the spec: `LstmStepManager::UpdateBatch` (body not under
src/): advance the batch position; in batch-major mode the hidden- and
cell-state offsets move to the next batch element's row. -/
def UpdateBatch (sz : LstmSizeInfo) (m : LstmStepManager) : LstmStepManager :=
  let cb := m.current_batch + 1
  if sz.time_major then { m with current_batch := cb }
  else
    { m with
      current_batch := cb
      hidden_state_offset := cb * sz.state_dimension
      cell_state_offset := cb * sz.state_dimension }

/-- `LstmStepManager::ResetTime` (in src/): reset only the time counter. -/
def ResetTime (m : LstmStepManager) : LstmStepManager := { m with current_time := 0 }

end LstmStepManager

/-- Slice of `n` elements of a flattened tensor starting at `off`. -/
def sliceAt (t : List Int) (off n : Nat) : List Int := (t.drop off).take n

/-- In-place write of slice `v` into a flattened tensor at offset `off`
(the model of writing through a `data + offset` pointer). -/
def writeSlice (t : List Int) (off : Nat) (v : List Int) : List Int :=
  t.take off ++ v ++ t.drop (off + v.length)

/-- The constant tensors `LstmStepInteger` reads through
`kernel_content.GetInternalTensor`: input sequence, the eight weight matrices
and the four gate biases (weight rows are `[state_dimension]` lists of
`[input_dimension]` or `[state_dimension]` columns). -/
structure LstmTensors where
  input_data : List Int
  input_to_forget_weights : List (List Int)
  input_to_input_weights : List (List Int)
  input_to_cell_weights : List (List Int)
  input_to_output_weights : List (List Int)
  recurrent_to_forget_weights : List (List Int)
  recurrent_to_input_weights : List (List Int)
  recurrent_to_cell_weights : List (List Int)
  recurrent_to_output_weights : List (List Int)
  forget_gate_bias : Option (List Int)
  input_gate_bias : Option (List Int)
  cell_gate_bias : Option (List Int)
  output_gate_bias : Option (List Int)
deriving DecidableEq

/-- The inter-gate elementwise-multiplication parameter sets of
`OpDataLSTM::inter_gate_parameters`. -/
structure InterGateParameters where
  forget_cell_mul_params : ArithmeticParams
  input_mul_params : ArithmeticParams
  output_mul_params : ArithmeticParams
deriving DecidableEq

/-- `OpDataLSTM::cell_state_info`: the cached cell-state scale power and the
quantized symmetric clip bound. -/
structure CellStateInfo where
  cell_state_scale_power : Int
  quantized_cell_clip : Int
deriving DecidableEq

/-- The per-operator data `LstmStepInteger` consumes (`OpDataLSTM`). -/
structure OpDataLSTM where
  size_info : LstmSizeInfo
  forget_gate_parameters : GateParameters
  input_gate_parameters : GateParameters
  cell_gate_parameters : GateParameters
  output_gate_parameters : GateParameters
  inter_gate_parameters : InterGateParameters
  cell_state_info : CellStateInfo
  cell_gate_nonlinear_type : TfLiteFusedActivation
deriving DecidableEq

/-- The mutable buffers of `LSTMKernelContents`: the four scratch buffers, the
persistent hidden/cell state tensors and the output tensor. -/
structure KernelState where
  buffer0 : List Int
  buffer1 : List Int
  buffer2 : List Int
  buffer3 : List Int
  hidden_state : List Int
  cell_state : List Int
  output : List Int
deriving DecidableEq

/-- `CalculateLstmGateInteger` (src/ lines 72-132): the input-path
fully-connected projection into the gate output buffer, the recurrent-path
projection into the scratch buffer, their elementwise saturating add, then
the selected nonlinearity; any activation other than sigmoid or tanh hits
`TFLITE_ASSERT_FALSE`, modelled as `none`.  Returns the gate output together
with the scratch buffer's final contents. -/
def CalculateLstmGateInteger (prims : NonlinPrims) (sz : LstmSizeInfo)
    (step_info : LstmStepManager) (gate_params : GateParameters)
    (input : List Int) (input_weight : List (List Int)) (input_bias : Option (List Int))
    (recurrent : List Int) (recurrent_weight : List (List Int))
    (recurrent_bias : Option (List Int))
    (activation : TfLiteFusedActivation) : Option (List Int × List Int) :=
  let nb := stateBatch sz
  let gate_output := FullyConnectedGeneral gate_params.input_fc_params nb
    sz.input_dimension sz.state_dimension (input.drop step_info.input_offset)
    input_weight input_bias
  let fc_output_buffer := FullyConnectedGeneral gate_params.recurrent_fc_params nb
    sz.state_dimension sz.state_dimension (recurrent.drop step_info.hidden_state_offset)
    recurrent_weight recurrent_bias
  let gate_sum := CwiseAdd gate_output fc_output_buffer
  match activation with
  | .kTfLiteActSigmoid => some (prims.logistic gate_sum, fc_output_buffer)
  | .kTfLiteActTanh => some (prims.tanhFn 0 gate_sum, fc_output_buffer)
  | _ => none

/-- `UpdateLstmCellInteger` (src/ lines 134-175): multiply the forget gate
into the cell-state slice with the forget/cell parameter set, multiply the
input gate by the cell candidate into the scratch buffer with the input
parameter set, add the two in the cell state's native width, and clip
symmetrically when the clip bound is positive.  Returns the updated
cell-state tensor and the scratch buffer's final contents. -/
def UpdateLstmCellInteger (sz : LstmSizeInfo) (step_info : LstmStepManager)
    (cell_state : List Int)
    (forget_gate_output input_gate_output cell_gate_output : List Int)
    (forget_cell_mul_params input_mul_params : ArithmeticParams)
    (clip : Int) : List Int × List Int :=
  let n := stateFlatSize sz
  let off := step_info.cell_state_offset
  let cs1 := MulElementwise n forget_cell_mul_params forget_gate_output (sliceAt cell_state off n)
  let buffer := MulElementwise n input_mul_params input_gate_output cell_gate_output
  let cs2 := CwiseAdd cs1 buffer
  let cs3 := if clip > 0 then CwiseClipping cs2 clip else cs2
  (writeSlice cell_state off cs3, buffer)

/-- `UpdateLstmHiddenInteger` (src/ lines 177-208): derive the tanh input
left-shift as `(15 + cell_state_scale_power) - 3`; when negative, right-shift
the cell-state slice in place by its absolute value and call tanh with shift
zero, otherwise call tanh with that shift on the untouched slice; then
multiply the tanh result by the output gate into the hidden-state slice.
Returns the (possibly pre-shifted) cell-state tensor, the updated
hidden-state tensor and the tanh scratch buffer. -/
def UpdateLstmHiddenInteger (prims : NonlinPrims) (sz : LstmSizeInfo)
    (step_info : LstmStepManager) (cell_state hidden_state : List Int)
    (output_gate_output : List Int) (mul_params : ArithmeticParams)
    (cell_state_scale_power : Int) : List Int × List Int × List Int :=
  let n := stateFlatSize sz
  let off := step_info.cell_state_offset
  let tanh_input_left_shift := (15 + cell_state_scale_power) - 3
  let cell_slice := sliceAt cell_state off n
  let shifted := if tanh_input_left_shift < 0 then
      ((cell_slice.map (fun x => asr x (-tanh_input_left_shift).toNat)), (0 : Int))
    else (cell_slice, tanh_input_left_shift)
  let buffer := prims.tanhFn shifted.2 shifted.1
  let new_hidden_slice := MulElementwiseGeneral n mul_params buffer output_gate_output
  (writeSlice cell_state off shifted.1,
   writeSlice hidden_state step_info.hidden_state_offset new_hidden_slice,
   buffer)

/-- `LstmStepInteger` (src/ lines 212-307): the six sub-steps in source
order — forget gate into buffer0, input gate into buffer1, cell-candidate
gate into buffer2 (each with buffer3 as the fully-connected scratch), cell
update reusing buffer1 as its multiply scratch, output gate reusing buffer1,
hidden update reusing buffer0 for the tanh result.  Every recurrent bias
argument is the source's `nullptr`.  `none` models the fatal assertion on an
unsupported cell-gate nonlinearity. -/
def LstmStepInteger (prims : NonlinPrims) (step_info : LstmStepManager)
    (op_data : OpDataLSTM) (t : LstmTensors) (ks : KernelState) : Option KernelState :=
  let sz := op_data.size_info
  match CalculateLstmGateInteger prims sz step_info op_data.forget_gate_parameters
      t.input_data t.input_to_forget_weights t.forget_gate_bias
      ks.hidden_state t.recurrent_to_forget_weights none
      .kTfLiteActSigmoid with
  | none => none
  | some fg =>
    let ks1 : KernelState := { ks with buffer0 := fg.1, buffer3 := fg.2 }
    match CalculateLstmGateInteger prims sz step_info op_data.input_gate_parameters
        t.input_data t.input_to_input_weights t.input_gate_bias
        ks1.hidden_state t.recurrent_to_input_weights none
        .kTfLiteActSigmoid with
    | none => none
    | some ig =>
      let ks2 : KernelState := { ks1 with buffer1 := ig.1, buffer3 := ig.2 }
      match CalculateLstmGateInteger prims sz step_info op_data.cell_gate_parameters
          t.input_data t.input_to_cell_weights t.cell_gate_bias
          ks2.hidden_state t.recurrent_to_cell_weights none
          op_data.cell_gate_nonlinear_type with
      | none => none
      | some cg =>
        let ks3 : KernelState := { ks2 with buffer2 := cg.1, buffer3 := cg.2 }
        let cellUpd := UpdateLstmCellInteger sz step_info ks3.cell_state
          ks3.buffer0 ks3.buffer1 ks3.buffer2
          op_data.inter_gate_parameters.forget_cell_mul_params
          op_data.inter_gate_parameters.input_mul_params
          op_data.cell_state_info.quantized_cell_clip
        let ks4 : KernelState := { ks3 with cell_state := cellUpd.1, buffer1 := cellUpd.2 }
        match CalculateLstmGateInteger prims sz step_info op_data.output_gate_parameters
            t.input_data t.input_to_output_weights t.output_gate_bias
            ks4.hidden_state t.recurrent_to_output_weights none
            .kTfLiteActSigmoid with
        | none => none
        | some og =>
          let ks5 : KernelState := { ks4 with buffer1 := og.1, buffer3 := og.2 }
          let hiddenUpd := UpdateLstmHiddenInteger prims sz step_info ks5.cell_state
            ks5.hidden_state ks5.buffer1
            op_data.inter_gate_parameters.output_mul_params
            op_data.cell_state_info.cell_state_scale_power
          some { ks5 with
                 cell_state := hiddenUpd.1
                 hidden_state := hiddenUpd.2.1
                 buffer0 := hiddenUpd.2.2 }

/-- One iteration body of `EvalLstmInteger`'s loops (src/ lines 322-334 and
339-351): run one step, then copy `batch_size * state_dimension` elements
from the start of the hidden-state tensor into the output tensor at the
current output offset (the source's `memcpy`), then advance the time
position. -/
def evalLstmIteration (prims : NonlinPrims) (op_data : OpDataLSTM) (t : LstmTensors)
    (m : LstmStepManager) (ks : KernelState) : Option (LstmStepManager × KernelState) :=
  match LstmStepInteger prims m op_data t ks with
  | none => none
  | some ks1 =>
    let sz := op_data.size_info
    let out2 := writeSlice ks1.output m.output_offset
      (sliceAt ks1.hidden_state 0 (sz.batch_size * sz.state_dimension))
    some (m.UpdateTime sz, { ks1 with output := out2 })

/-- The inner time loop of `EvalLstmInteger`, iterated `fuel` times. -/
def evalTimeLoop (prims : NonlinPrims) (op_data : OpDataLSTM) (t : LstmTensors) :
    Nat → LstmStepManager → KernelState → Option (LstmStepManager × KernelState)
  | 0, m, ks => some (m, ks)
  | n + 1, m, ks =>
    match evalLstmIteration prims op_data t m ks with
    | none => none
    | some r => evalTimeLoop prims op_data t n r.1 r.2

/-- The outer batch loop of `EvalLstmInteger`'s batch-major branch: for each
batch element run the whole time loop, then advance the batch position and
reset the time counter. -/
def evalBatchLoop (prims : NonlinPrims) (op_data : OpDataLSTM) (t : LstmTensors) :
    Nat → LstmStepManager → KernelState → Option (LstmStepManager × KernelState)
  | 0, m, ks => some (m, ks)
  | b + 1, m, ks =>
    match evalTimeLoop prims op_data t op_data.size_info.time_steps m ks with
    | none => none
    | some r =>
      evalBatchLoop prims op_data t b ((r.1.UpdateBatch op_data.size_info).ResetTime) r.2

/-- `EvalLstmInteger` (src/ lines 314-358): time-major mode runs the time
loop once over all time steps; batch-major mode runs the time loop per batch
element, advancing the batch position in between.  The step manager starts
at the zero position. -/
def EvalLstmInteger (prims : NonlinPrims) (op_data : OpDataLSTM) (t : LstmTensors)
    (ks : KernelState) : Option KernelState :=
  let sz := op_data.size_info
  if sz.time_major then
    (evalTimeLoop prims op_data t sz.time_steps {} ks).map (fun r => r.2)
  else
    (evalBatchLoop prims op_data t sz.batch_size {} ks).map (fun r => r.2)

/-- Result of one LSTM step as the spec describes it: the four gate values
and the final cell and hidden states. -/
structure LstmStepResult where
  forget_gate : List Int
  input_gate : List Int
  cell_gate : List Int
  output_gate : List Int
  cell_state : List Int
  hidden_state : List Int
deriving DecidableEq

/-- Pre-activation value of one gate: the input-path and recurrent-path
fully-connected projections, elementwise-added. -/
def gateRawOutput (sz : LstmSizeInfo) (step_info : LstmStepManager)
    (gate_params : GateParameters)
    (input : List Int) (input_weight : List (List Int)) (input_bias : Option (List Int))
    (recurrent : List Int) (recurrent_weight : List (List Int))
    (recurrent_bias : Option (List Int)) : List Int :=
  CwiseAdd
    (FullyConnectedGeneral gate_params.input_fc_params (stateBatch sz)
      sz.input_dimension sz.state_dimension (input.drop step_info.input_offset)
      input_weight input_bias)
    (FullyConnectedGeneral gate_params.recurrent_fc_params (stateBatch sz)
      sz.state_dimension sz.state_dimension (recurrent.drop step_info.hidden_state_offset)
      recurrent_weight recurrent_bias)

/-- Reference step for claim C5, following the spec's sub-step sequence with
six fresh, non-aliased buffers: each gate value and each updater scratch
lives in its own buffer; no slot is reused. -/
def LstmStepSixBuffers (prims : NonlinPrims) (step_info : LstmStepManager)
    (op_data : OpDataLSTM) (t : LstmTensors)
    (hidden_state cell_state : List Int) : Option LstmStepResult :=
  let sz := op_data.size_info
  let fg := prims.logistic (gateRawOutput sz step_info op_data.forget_gate_parameters
    t.input_data t.input_to_forget_weights t.forget_gate_bias
    hidden_state t.recurrent_to_forget_weights none)
  let ig := prims.logistic (gateRawOutput sz step_info op_data.input_gate_parameters
    t.input_data t.input_to_input_weights t.input_gate_bias
    hidden_state t.recurrent_to_input_weights none)
  match activationApply prims op_data.cell_gate_nonlinear_type
      (gateRawOutput sz step_info op_data.cell_gate_parameters
        t.input_data t.input_to_cell_weights t.cell_gate_bias
        hidden_state t.recurrent_to_cell_weights none) with
  | none => none
  | some cg =>
    let cellUpd := UpdateLstmCellInteger sz step_info cell_state fg ig cg
      op_data.inter_gate_parameters.forget_cell_mul_params
      op_data.inter_gate_parameters.input_mul_params
      op_data.cell_state_info.quantized_cell_clip
    let og := prims.logistic (gateRawOutput sz step_info op_data.output_gate_parameters
      t.input_data t.input_to_output_weights t.output_gate_bias
      hidden_state t.recurrent_to_output_weights none)
    let hiddenUpd := UpdateLstmHiddenInteger prims sz step_info cellUpd.1 hidden_state og
      op_data.inter_gate_parameters.output_mul_params
      op_data.cell_state_info.cell_state_scale_power
    some { forget_gate := fg, input_gate := ig, cell_gate := cg, output_gate := og,
           cell_state := hiddenUpd.1, hidden_state := hiddenUpd.2.1 }

/-- Reference definition for claim C2: the cell update with the clipping
stage removed altogether. -/
def UpdateLstmCellNoClip (sz : LstmSizeInfo) (step_info : LstmStepManager)
    (cell_state : List Int)
    (forget_gate_output input_gate_output cell_gate_output : List Int)
    (forget_cell_mul_params input_mul_params : ArithmeticParams) : List Int × List Int :=
  let n := stateFlatSize sz
  let off := step_info.cell_state_offset
  let cs1 := MulElementwise n forget_cell_mul_params forget_gate_output (sliceAt cell_state off n)
  let buffer := MulElementwise n input_mul_params input_gate_output cell_gate_output
  let cs2 := CwiseAdd cs1 buffer
  (writeSlice cell_state off cs2, buffer)

/-- The same operator data with the `time_major` flag set to `b` and every
other field unchanged. -/
def setTimeMajor (op_data : OpDataLSTM) (b : Bool) : OpDataLSTM :=
  { op_data with size_info := { op_data.size_info with time_major := b } }

/-- Modelled from the spec: the `tflite::CheckedLog2` primitive (kernel
utility code not under src/): computes the base-2 logarithm of the scale
and reports through its second component whether the scale is an exact
power of two — the spec's precondition for the tanh approximation.  (The C
code rounds a floating-point log2 and tests the fractional part against a
tolerance; the model uses the exact check the spec describes.) -/
def CheckedLog2 (x : ℚ) : Int × Bool :=
  let k := Int.log 2 x
  (k, decide ((2 : ℚ) ^ k = x))

/-- The cell-state scale-power derivation of `CreateLSTMKernelContent`
(src/ `lstm_eval_16act_test.h` lines 292-295; `TestHiddenStateUpdateQuantized`
lines 210-213 is identical): call `CheckedLog2` on the cell-state scale and
store the resulting exponent.  The boolean result of `CheckedLog2` is
discarded, so this derivation is a total function — it has no failure
path. -/
def CreateLSTMKernelContent_scale_power (cell_state_scale : ℚ) : Int :=
  (CheckedLog2 cell_state_scale).1

/-- Characterization of `LstmStepInteger`: the aliased six-sub-step pipeline,
written without the scratch-slot threading.  Shared workhorse lemma for the
step-level claims. -/
theorem LstmStepInteger_eq (prims : NonlinPrims) (step_info : LstmStepManager)
    (op_data : OpDataLSTM) (t : LstmTensors) (ks : KernelState) :
    LstmStepInteger prims step_info op_data t ks =
      (let sz := op_data.size_info
       let fg := prims.logistic (gateRawOutput sz step_info op_data.forget_gate_parameters
         t.input_data t.input_to_forget_weights t.forget_gate_bias
         ks.hidden_state t.recurrent_to_forget_weights none)
       let ig := prims.logistic (gateRawOutput sz step_info op_data.input_gate_parameters
         t.input_data t.input_to_input_weights t.input_gate_bias
         ks.hidden_state t.recurrent_to_input_weights none)
       match activationApply prims op_data.cell_gate_nonlinear_type
           (gateRawOutput sz step_info op_data.cell_gate_parameters
             t.input_data t.input_to_cell_weights t.cell_gate_bias
             ks.hidden_state t.recurrent_to_cell_weights none) with
       | none => none
       | some cg =>
         let cellUpd := UpdateLstmCellInteger sz step_info ks.cell_state fg ig cg
           op_data.inter_gate_parameters.forget_cell_mul_params
           op_data.inter_gate_parameters.input_mul_params
           op_data.cell_state_info.quantized_cell_clip
         let og := prims.logistic (gateRawOutput sz step_info op_data.output_gate_parameters
           t.input_data t.input_to_output_weights t.output_gate_bias
           ks.hidden_state t.recurrent_to_output_weights none)
         let recFC := FullyConnectedGeneral
           op_data.output_gate_parameters.recurrent_fc_params (stateBatch sz)
           sz.state_dimension sz.state_dimension
           (ks.hidden_state.drop step_info.hidden_state_offset)
           t.recurrent_to_output_weights none
         let hiddenUpd := UpdateLstmHiddenInteger prims sz step_info cellUpd.1
           ks.hidden_state og
           op_data.inter_gate_parameters.output_mul_params
           op_data.cell_state_info.cell_state_scale_power
         some { buffer0 := hiddenUpd.2.2, buffer1 := og, buffer2 := cg, buffer3 := recFC,
                hidden_state := hiddenUpd.2.1, cell_state := hiddenUpd.1,
                output := ks.output }) := by
  obtain ⟨sz, fgp, igp, cgp, ogp, igpars, csi, act⟩ := op_data
  cases act <;> rfl

theorem getD_range_map (n i : Nat) (f : Nat → Int) (h : i < n) :
    ((List.range n).map f).getD i 0 = f i := by
  rw [List.getD_eq_getElem _ _ (by simpa using h)]
  simp [List.getElem_map, List.getElem_range]

theorem getD_zipWith (f : Int → Int → Int) (a b : List Int) (i : Nat)
    (ha : i < a.length) (hb : i < b.length) :
    (List.zipWith f a b).getD i 0 = f (a.getD i 0) (b.getD i 0) := by
  rw [List.getD_eq_getElem _ _ (by simp [ha, hb]), List.getD_eq_getElem a _ ha,
    List.getD_eq_getElem b _ hb]
  simp [List.getElem_zipWith]

theorem getD_drop (t : List Int) (k m : Nat) : (t.drop k).getD m 0 = t.getD (k + m) 0 := by
  simp [List.getD_eq_getElem?_getD, List.getElem?_drop]

theorem getD_append_left (l1 l2 : List Int) (j : Nat) (h : j < l1.length) :
    (l1 ++ l2).getD j 0 = l1.getD j 0 := by
  simp [List.getD_eq_getElem?_getD, List.getElem?_append, h]

theorem getD_append_right (l1 l2 : List Int) (j : Nat) (h : l1.length ≤ j) :
    (l1 ++ l2).getD j 0 = l2.getD (j - l1.length) 0 := by
  simp [List.getD_eq_getElem?_getD, List.getElem?_append_right h]

theorem MulElementwise_length (n : Nat) (p : ArithmeticParams) (a b : List Int) :
    (MulElementwise n p a b).length = n := by
  simp [MulElementwise]

theorem MulElementwise_getD (n : Nat) (p : ArithmeticParams) (a b : List Int)
    (i : Nat) (h : i < n) :
    (MulElementwise n p a b).getD i 0 = mulElementwiseOne p (a.getD i 0) (b.getD i 0) :=
  getD_range_map n i _ h

theorem CwiseAdd_length (a b : List Int) : (CwiseAdd a b).length = min a.length b.length := by
  simp [CwiseAdd]

theorem CwiseAdd_getD (a b : List Int) (i : Nat) (ha : i < a.length) (hb : i < b.length) :
    (CwiseAdd a b).getD i 0 = satAddCell (a.getD i 0) (b.getD i 0) :=
  getD_zipWith _ a b i ha hb

theorem CwiseClipping_length (v : List Int) (clip : Int) :
    (CwiseClipping v clip).length = v.length := by
  simp [CwiseClipping]

theorem CwiseClipping_getD (v : List Int) (clip : Int) (i : Nat) (h : i < v.length) :
    (CwiseClipping v clip).getD i 0 = min clip (max (-clip) (v.getD i 0)) := by
  unfold CwiseClipping
  rw [List.getD_eq_getElem _ _ (by simpa using h), List.getD_eq_getElem v _ h]
  simp [List.getElem_map]

theorem sliceAt_length (t : List Int) (off n : Nat) (h : off + n ≤ t.length) :
    (sliceAt t off n).length = n := by
  simp [sliceAt]
  omega

theorem writeSlice_length (t : List Int) (off : Nat) (v : List Int)
    (h : off + v.length ≤ t.length) : (writeSlice t off v).length = t.length := by
  simp [writeSlice]
  omega

theorem take_length_of_le (t : List Int) (off : Nat) (h : off ≤ t.length) :
    (t.take off).length = off := by
  simp [h]

theorem writeSlice_eq_assoc (t : List Int) (off : Nat) (v : List Int) :
    writeSlice t off v = t.take off ++ (v ++ t.drop (off + v.length)) := by
  unfold writeSlice
  rw [List.append_assoc]

theorem writeSlice_getD_inner (t : List Int) (off : Nat) (v : List Int) (i : Nat)
    (hoff : off ≤ t.length) (hi : i < v.length) :
    (writeSlice t off v).getD (off + i) 0 = v.getD i 0 := by
  rw [writeSlice_eq_assoc]
  rw [getD_append_right _ _ _ (by rw [take_length_of_le t off hoff]; omega),
    take_length_of_le t off hoff]
  rw [getD_append_left _ _ _ (by omega)]
  congr 1
  omega

theorem writeSlice_getD_left (t : List Int) (off : Nat) (v : List Int) (j : Nat)
    (hj : j < off) (hoff : off ≤ t.length) :
    (writeSlice t off v).getD j 0 = t.getD j 0 := by
  rw [writeSlice_eq_assoc]
  rw [getD_append_left _ _ _ (by rw [take_length_of_le t off hoff]; omega)]
  rw [List.getD_eq_getElem?_getD, List.getD_eq_getElem?_getD, List.getElem?_take]
  simp [hj]

theorem writeSlice_getD_right (t : List Int) (off : Nat) (v : List Int) (j : Nat)
    (hj : off + v.length ≤ j) (hoff : off ≤ t.length) :
    (writeSlice t off v).getD j 0 = t.getD j 0 := by
  rw [writeSlice_eq_assoc]
  rw [getD_append_right _ _ _ (by rw [take_length_of_le t off hoff]; omega),
    take_length_of_le t off hoff,
    getD_append_right _ _ _ (by omega), getD_drop]
  congr 1
  omega

theorem writeSlice_sliceAt_self (t : List Int) (off n : Nat) (h : off + n ≤ t.length) :
    writeSlice t off (sliceAt t off n) = t := by
  rw [writeSlice_eq_assoc, sliceAt_length t off n h]
  unfold sliceAt
  calc t.take off ++ ((t.drop off).take n ++ t.drop (off + n))
      = t.take off ++ ((t.drop off).take n ++ (t.drop off).drop n) := by
        rw [List.drop_drop]
    _ = t.take off ++ t.drop off := by rw [List.take_append_drop]
    _ = t := List.take_append_drop off t

theorem sliceAt_writeSlice (t : List Int) (off : Nat) (v : List Int)
    (hoff : off ≤ t.length) : sliceAt (writeSlice t off v) off v.length = v := by
  unfold writeSlice sliceAt
  rw [List.drop_append_of_le_length (by simp [take_length_of_le t off hoff]),
    List.drop_append_of_le_length (le_of_eq (take_length_of_le t off hoff).symm)]
  have h0 : (t.take off).drop off = [] := by
    apply List.drop_eq_nil_of_le
    rw [take_length_of_le t off hoff]
  rw [h0]
  simp

theorem sliceAt_getD (t : List Int) (off n i : Nat) (hi : i < n) :
    (sliceAt t off n).getD i 0 = t.getD (off + i) 0 := by
  simp [sliceAt, List.getD_eq_getElem?_getD, List.getElem?_take, hi, List.getElem?_drop]

/-- Per-element formula of the cell-state update as claim C1 states it: the
forget gate times the old cell value under the forget/cell parameter set,
plus the input gate times the cell candidate under the input parameter set,
added in the cell state's native width, then symmetrically clipped when the
clip bound is positive. -/
def cellUpdateElement (fcm icm : ArithmeticParams) (clip fgv cellv igv cgv : Int) : Int :=
  let v := satAddCell (mulElementwiseOne fcm fgv cellv) (mulElementwiseOne icm igv cgv)
  if clip > 0 then min clip (max (-clip) v) else v

/-- The slice `UpdateLstmCellInteger` writes, expressed without the kernel
pipeline: clipped-or-not elementwise combination of the gates with the old
cell slice. -/
theorem cellNewSlice_getD (n : Nat) (fcm icm : ArithmeticParams)
    (fg ig cg old : List Int) (clip : Int) (i : Nat) (hi : i < n) :
    (if clip > 0 then
        CwiseClipping (CwiseAdd (MulElementwise n fcm fg old) (MulElementwise n icm ig cg)) clip
      else CwiseAdd (MulElementwise n fcm fg old) (MulElementwise n icm ig cg)).getD i 0 =
      (let v := satAddCell (mulElementwiseOne fcm (fg.getD i 0) (old.getD i 0))
        (mulElementwiseOne icm (ig.getD i 0) (cg.getD i 0))
       if clip > 0 then min clip (max (-clip) v) else v) := by
  have h1 : (MulElementwise n fcm fg old).length = n := MulElementwise_length _ _ _ _
  have h2 : (MulElementwise n icm ig cg).length = n := MulElementwise_length _ _ _ _
  have hadd : (CwiseAdd (MulElementwise n fcm fg old) (MulElementwise n icm ig cg)).length = n := by
    rw [CwiseAdd_length, h1, h2, Nat.min_self]
  by_cases hc : clip > 0
  · rw [if_pos hc, if_pos hc,
      CwiseClipping_getD _ _ _ (by rw [hadd]; exact hi),
      CwiseAdd_getD _ _ _ (by rw [h1]; exact hi) (by rw [h2]; exact hi),
      MulElementwise_getD _ _ _ _ _ hi, MulElementwise_getD _ _ _ _ _ hi]
  · rw [if_neg hc, if_neg hc,
      CwiseAdd_getD _ _ _ (by rw [h1]; exact hi) (by rw [h2]; exact hi),
      MulElementwise_getD _ _ _ _ _ hi, MulElementwise_getD _ _ _ _ _ hi]

theorem cellNewSlice_length (n : Nat) (fcm icm : ArithmeticParams)
    (fg ig cg old : List Int) (clip : Int) :
    (if clip > 0 then
        CwiseClipping (CwiseAdd (MulElementwise n fcm fg old) (MulElementwise n icm ig cg)) clip
      else CwiseAdd (MulElementwise n fcm fg old) (MulElementwise n icm ig cg)).length = n := by
  have h1 : (MulElementwise n fcm fg old).length = n := MulElementwise_length _ _ _ _
  have h2 : (MulElementwise n icm ig cg).length = n := MulElementwise_length _ _ _ _
  by_cases hc : clip > 0 <;>
    simp [hc, CwiseClipping_length, CwiseAdd_length, h1, h2]

theorem UpdateLstmCellInteger_fst (sz : LstmSizeInfo) (m : LstmStepManager)
    (cell_state fg ig cg : List Int) (fcm icm : ArithmeticParams) (clip : Int) :
    (UpdateLstmCellInteger sz m cell_state fg ig cg fcm icm clip).1 =
      writeSlice cell_state m.cell_state_offset
        (if clip > 0 then
            CwiseClipping (CwiseAdd
              (MulElementwise (stateFlatSize sz) fcm fg
                (sliceAt cell_state m.cell_state_offset (stateFlatSize sz)))
              (MulElementwise (stateFlatSize sz) icm ig cg)) clip
          else CwiseAdd
            (MulElementwise (stateFlatSize sz) fcm fg
              (sliceAt cell_state m.cell_state_offset (stateFlatSize sz)))
            (MulElementwise (stateFlatSize sz) icm ig cg)) := rfl

/-- Claim C1: `UpdateLstmCellInteger` replaces the cell-state slice at the
current step offset with `clip(forget_gate ⊙ old_cell + input_gate ⊙
cell_candidate)`, the first multiply under `forget_cell_mul_params`, the
second under `input_mul_params`, the add saturating in the cell state's
native integer width; entries outside the slice are untouched and the tensor
keeps its length. -/
theorem claim_C1_cell_update (sz : LstmSizeInfo) (m : LstmStepManager)
    (cell_state fg ig cg : List Int) (fcm icm : ArithmeticParams) (clip : Int)
    (h : m.cell_state_offset + stateFlatSize sz ≤ cell_state.length) :
    (∀ i, i < stateFlatSize sz →
      ((UpdateLstmCellInteger sz m cell_state fg ig cg fcm icm clip).1).getD
          (m.cell_state_offset + i) 0 =
        cellUpdateElement fcm icm clip (fg.getD i 0)
          (cell_state.getD (m.cell_state_offset + i) 0) (ig.getD i 0) (cg.getD i 0))
    ∧ (∀ j, j < m.cell_state_offset →
      ((UpdateLstmCellInteger sz m cell_state fg ig cg fcm icm clip).1).getD j 0 =
        cell_state.getD j 0)
    ∧ (∀ j, m.cell_state_offset + stateFlatSize sz ≤ j →
      ((UpdateLstmCellInteger sz m cell_state fg ig cg fcm icm clip).1).getD j 0 =
        cell_state.getD j 0)
    ∧ ((UpdateLstmCellInteger sz m cell_state fg ig cg fcm icm clip).1).length =
        cell_state.length := by
  have hoffle : m.cell_state_offset ≤ cell_state.length := by omega
  have hlen := cellNewSlice_length (stateFlatSize sz) fcm icm fg ig cg
    (sliceAt cell_state m.cell_state_offset (stateFlatSize sz)) clip
  refine ⟨?_, ?_, ?_, ?_⟩
  · intro i hi
    rw [UpdateLstmCellInteger_fst,
      writeSlice_getD_inner _ _ _ _ hoffle (by rw [hlen]; exact hi),
      cellNewSlice_getD _ _ _ _ _ _ _ _ _ hi,
      sliceAt_getD _ _ _ _ hi]
    rfl
  · intro j hj
    rw [UpdateLstmCellInteger_fst, writeSlice_getD_left _ _ _ _ hj hoffle]
  · intro j hj
    rw [UpdateLstmCellInteger_fst, writeSlice_getD_right _ _ _ _ (by rw [hlen]; exact hj) hoffle]
  · rw [UpdateLstmCellInteger_fst, writeSlice_length _ _ _ (by rw [hlen]; exact h)]

/-- Witness for claim C1 at a concrete input: one state element, identity
scale, clip disabled. -/
theorem claim_C1_cell_update_witness :
    ((UpdateLstmCellInteger
        { time_major := false, batch_size := 1, time_steps := 1,
          input_dimension := 1, state_dimension := 1 }
        {} [5] [1] [2] [3]
        { input1_offset := 0, input2_offset := 0, output_offset := 0,
          output_multiplier := 2 ^ 31, output_shift := 0,
          quantized_activation_min := -32768, quantized_activation_max := 32767 }
        { input1_offset := 0, input2_offset := 0, output_offset := 0,
          output_multiplier := 2 ^ 31, output_shift := 0,
          quantized_activation_min := -32768, quantized_activation_max := 32767 }
        0).1).getD 0 0 =
      cellUpdateElement
        { input1_offset := 0, input2_offset := 0, output_offset := 0,
          output_multiplier := 2 ^ 31, output_shift := 0,
          quantized_activation_min := -32768, quantized_activation_max := 32767 }
        { input1_offset := 0, input2_offset := 0, output_offset := 0,
          output_multiplier := 2 ^ 31, output_shift := 0,
          quantized_activation_min := -32768, quantized_activation_max := 32767 }
        0 1 5 2 3 := by
  simpa using
    (claim_C1_cell_update
      { time_major := false, batch_size := 1, time_steps := 1,
        input_dimension := 1, state_dimension := 1 }
      {} [5] [1] [2] [3]
      { input1_offset := 0, input2_offset := 0, output_offset := 0,
        output_multiplier := 2 ^ 31, output_shift := 0,
        quantized_activation_min := -32768, quantized_activation_max := 32767 }
      { input1_offset := 0, input2_offset := 0, output_offset := 0,
        output_multiplier := 2 ^ 31, output_shift := 0,
        quantized_activation_min := -32768, quantized_activation_max := 32767 }
      0 (by decide)).1 0 (by decide)

/-- Claim C2: a clip bound of 0 disables clipping — the update equals the
same pipeline with the clipping stage removed, whatever the magnitudes — and
for a positive bound `K` every post-update cell-state value in the updated
slice lies in `[-K, K]`. -/
theorem claim_C2_cell_clip (sz : LstmSizeInfo) (m : LstmStepManager)
    (cell_state fg ig cg : List Int) (fcm icm : ArithmeticParams)
    (h : m.cell_state_offset + stateFlatSize sz ≤ cell_state.length) :
    UpdateLstmCellInteger sz m cell_state fg ig cg fcm icm 0 =
        UpdateLstmCellNoClip sz m cell_state fg ig cg fcm icm
    ∧ (∀ K : Int, 0 < K → ∀ i, i < stateFlatSize sz →
        -K ≤ ((UpdateLstmCellInteger sz m cell_state fg ig cg fcm icm K).1).getD
            (m.cell_state_offset + i) 0
        ∧ ((UpdateLstmCellInteger sz m cell_state fg ig cg fcm icm K).1).getD
            (m.cell_state_offset + i) 0 ≤ K) := by
  have hoffle : m.cell_state_offset ≤ cell_state.length := by omega
  constructor
  · rfl
  · intro K hK i hi
    have hlen := cellNewSlice_length (stateFlatSize sz) fcm icm fg ig cg
      (sliceAt cell_state m.cell_state_offset (stateFlatSize sz)) K
    rw [UpdateLstmCellInteger_fst,
      writeSlice_getD_inner _ _ _ _ hoffle (by rw [hlen]; exact hi),
      cellNewSlice_getD _ _ _ _ _ _ _ _ _ hi]
    simp only [if_pos hK]
    constructor
    · exact le_min (by omega) (le_max_left _ _)
    · exact min_le_left _ _

/-- Witness for claim C2 at a concrete input: a saturated product against a
clip bound of 3 stays inside the band, and the zero bound leaves the
pipeline unclipped. -/
theorem claim_C2_cell_clip_witness :
    UpdateLstmCellInteger
        { time_major := false, batch_size := 1, time_steps := 1,
          input_dimension := 1, state_dimension := 1 }
        {} [30000] [30000] [0] [0]
        { input1_offset := 0, input2_offset := 0, output_offset := 0,
          output_multiplier := 2 ^ 31, output_shift := 0,
          quantized_activation_min := -32768, quantized_activation_max := 32767 }
        { input1_offset := 0, input2_offset := 0, output_offset := 0,
          output_multiplier := 2 ^ 31, output_shift := 0,
          quantized_activation_min := -32768, quantized_activation_max := 32767 }
        0 =
      UpdateLstmCellNoClip
        { time_major := false, batch_size := 1, time_steps := 1,
          input_dimension := 1, state_dimension := 1 }
        {} [30000] [30000] [0] [0]
        { input1_offset := 0, input2_offset := 0, output_offset := 0,
          output_multiplier := 2 ^ 31, output_shift := 0,
          quantized_activation_min := -32768, quantized_activation_max := 32767 }
        { input1_offset := 0, input2_offset := 0, output_offset := 0,
          output_multiplier := 2 ^ 31, output_shift := 0,
          quantized_activation_min := -32768, quantized_activation_max := 32767 } := by
  exact
    (claim_C2_cell_clip
      { time_major := false, batch_size := 1, time_steps := 1,
        input_dimension := 1, state_dimension := 1 }
      {} [30000] [30000] [0] [0]
      { input1_offset := 0, input2_offset := 0, output_offset := 0,
        output_multiplier := 2 ^ 31, output_shift := 0,
        quantized_activation_min := -32768, quantized_activation_max := 32767 }
      { input1_offset := 0, input2_offset := 0, output_offset := 0,
        output_multiplier := 2 ^ 31, output_shift := 0,
        quantized_activation_min := -32768, quantized_activation_max := 32767 }
      (by decide)).1

/-- Claim C9: the gate computation's activation dispatch fails fatally
(modelled as `none`) exactly for activations other than sigmoid and tanh;
for those two it always succeeds. -/
theorem claim_C9_activation_assert (prims : NonlinPrims) (sz : LstmSizeInfo)
    (step_info : LstmStepManager) (gate_params : GateParameters)
    (input : List Int) (input_weight : List (List Int)) (input_bias : Option (List Int))
    (recurrent : List Int) (recurrent_weight : List (List Int))
    (recurrent_bias : Option (List Int)) (activation : TfLiteFusedActivation) :
    CalculateLstmGateInteger prims sz step_info gate_params input input_weight input_bias
        recurrent recurrent_weight recurrent_bias activation = none ↔
      activation ≠ .kTfLiteActSigmoid ∧ activation ≠ .kTfLiteActTanh := by
  cases activation <;> simp [CalculateLstmGateInteger]

/-- Claim C4: the hidden-state updater derives the tanh input left-shift as
`(15 + cell_state_scale_power) - 3`.  When that value is negative, the
cell-state slice at the current offset is first arithmetically right-shifted
in place by its absolute value and tanh is invoked with a left shift of
exactly 0; when it is non-negative, the cell state is passed to tanh
unmodified with that left shift. -/
theorem claim_C4_tanh_shift (prims : NonlinPrims) (sz : LstmSizeInfo)
    (m : LstmStepManager) (cell_state hidden_state og : List Int)
    (mp : ArithmeticParams) (power : Int)
    (h : m.cell_state_offset + stateFlatSize sz ≤ cell_state.length) :
    ((15 + power) - 3 < 0 →
      UpdateLstmHiddenInteger prims sz m cell_state hidden_state og mp power =
        (writeSlice cell_state m.cell_state_offset
          ((sliceAt cell_state m.cell_state_offset (stateFlatSize sz)).map
            (fun x => asr x (-((15 + power) - 3)).toNat)),
         writeSlice hidden_state m.hidden_state_offset
          (MulElementwiseGeneral (stateFlatSize sz) mp
            (prims.tanhFn 0
              ((sliceAt cell_state m.cell_state_offset (stateFlatSize sz)).map
                (fun x => asr x (-((15 + power) - 3)).toNat))) og),
         prims.tanhFn 0
          ((sliceAt cell_state m.cell_state_offset (stateFlatSize sz)).map
            (fun x => asr x (-((15 + power) - 3)).toNat))))
    ∧ (0 ≤ (15 + power) - 3 →
      UpdateLstmHiddenInteger prims sz m cell_state hidden_state og mp power =
        (cell_state,
         writeSlice hidden_state m.hidden_state_offset
          (MulElementwiseGeneral (stateFlatSize sz) mp
            (prims.tanhFn ((15 + power) - 3)
              (sliceAt cell_state m.cell_state_offset (stateFlatSize sz))) og),
         prims.tanhFn ((15 + power) - 3)
          (sliceAt cell_state m.cell_state_offset (stateFlatSize sz)))) := by
  constructor
  · intro hneg
    simp only [UpdateLstmHiddenInteger, if_pos hneg]
  · intro hpos
    simp only [UpdateLstmHiddenInteger, if_neg (not_lt.mpr hpos)]
    rw [writeSlice_sliceAt_self _ _ _ h]

/-- Witness for claim C4 at a concrete input: one element, scale power -20,
so the derived shift is -8 and the slice is pre-shifted right by 8. -/
theorem claim_C4_tanh_shift_witness :
    UpdateLstmHiddenInteger { logistic := fun v => v, tanhFn := fun _ v => v }
        { time_major := false, batch_size := 1, time_steps := 1,
          input_dimension := 1, state_dimension := 1 }
        {} [1024] [7] [0]
        { input1_offset := 0, input2_offset := 0, output_offset := 0,
          output_multiplier := 2 ^ 31, output_shift := 0,
          quantized_activation_min := -32768, quantized_activation_max := 32767 }
        (-20) =
      (writeSlice [1024] 0 ((sliceAt [1024] 0 1).map (fun x => asr x 8)),
       writeSlice [7] 0
        (MulElementwiseGeneral 1
          { input1_offset := 0, input2_offset := 0, output_offset := 0,
            output_multiplier := 2 ^ 31, output_shift := 0,
            quantized_activation_min := -32768, quantized_activation_max := 32767 }
          ((sliceAt [1024] 0 1).map (fun x => asr x 8)) [0]),
       (sliceAt [1024] 0 1).map (fun x => asr x 8)) := by
  simpa using
    (claim_C4_tanh_shift { logistic := fun v => v, tanhFn := fun _ v => v }
      { time_major := false, batch_size := 1, time_steps := 1,
        input_dimension := 1, state_dimension := 1 }
      {} [1024] [7] [0]
      { input1_offset := 0, input2_offset := 0, output_offset := 0,
        output_multiplier := 2 ^ 31, output_shift := 0,
        quantized_activation_min := -32768, quantized_activation_max := 32767 }
      (-20) (by decide)).1 (by decide)

/-- Claim C3: every gate is `activation(FC(input) + FC(recurrent))` — the
input-path and recurrent-path fully-connected projections land in separate
buffers (the scratch buffer returned alongside the gate output carries the
recurrent projection), are elementwise-added, and then pass through the
selected saturating nonlinearity: logistic for a sigmoid gate, the tanh
primitive for a tanh gate; inside the step the output gate is wired with
sigmoid and the cell-candidate gate with the model-configured
nonlinearity. -/
theorem claim_C3_gate_formula :
    (∀ (prims : NonlinPrims) (sz : LstmSizeInfo) (m : LstmStepManager)
        (gp : GateParameters) (input : List Int) (iw : List (List Int))
        (ib : Option (List Int)) (rec : List Int) (rw : List (List Int))
        (rb : Option (List Int)),
      CalculateLstmGateInteger prims sz m gp input iw ib rec rw rb .kTfLiteActSigmoid =
        some (prims.logistic (gateRawOutput sz m gp input iw ib rec rw rb),
          FullyConnectedGeneral gp.recurrent_fc_params (stateBatch sz)
            sz.state_dimension sz.state_dimension (rec.drop m.hidden_state_offset) rw rb))
    ∧ (∀ (prims : NonlinPrims) (sz : LstmSizeInfo) (m : LstmStepManager)
        (gp : GateParameters) (input : List Int) (iw : List (List Int))
        (ib : Option (List Int)) (rec : List Int) (rw : List (List Int))
        (rb : Option (List Int)),
      CalculateLstmGateInteger prims sz m gp input iw ib rec rw rb .kTfLiteActTanh =
        some (prims.tanhFn 0 (gateRawOutput sz m gp input iw ib rec rw rb),
          FullyConnectedGeneral gp.recurrent_fc_params (stateBatch sz)
            sz.state_dimension sz.state_dimension (rec.drop m.hidden_state_offset) rw rb))
    ∧ (∀ (prims : NonlinPrims) (m : LstmStepManager) (op_data : OpDataLSTM)
        (t : LstmTensors) (ks ks' : KernelState),
      LstmStepInteger prims m op_data t ks = some ks' →
        ks'.buffer1 = prims.logistic (gateRawOutput op_data.size_info m
          op_data.output_gate_parameters t.input_data t.input_to_output_weights
          t.output_gate_bias ks.hidden_state t.recurrent_to_output_weights none)
        ∧ activationApply prims op_data.cell_gate_nonlinear_type
            (gateRawOutput op_data.size_info m op_data.cell_gate_parameters
              t.input_data t.input_to_cell_weights t.cell_gate_bias
              ks.hidden_state t.recurrent_to_cell_weights none) = some ks'.buffer2) := by
  refine ⟨fun _ _ _ _ _ _ _ _ _ _ => rfl, fun _ _ _ _ _ _ _ _ _ _ => rfl, ?_⟩
  intro prims m op_data t ks ks' hstep
  rw [LstmStepInteger_eq] at hstep
  dsimp only at hstep
  cases hA : activationApply prims op_data.cell_gate_nonlinear_type
      (gateRawOutput op_data.size_info m op_data.cell_gate_parameters
        t.input_data t.input_to_cell_weights t.cell_gate_bias
        ks.hidden_state t.recurrent_to_cell_weights none) with
  | none =>
    rw [hA] at hstep
    simp at hstep
  | some cg =>
    rw [hA] at hstep
    simp only [Option.some.injEq] at hstep
    subst hstep
    exact ⟨rfl, by simpa using hA⟩

/-- Claim C5: the aliased four-buffer step (buffer3 as the shared
fully-connected scratch, buffer1 reused for the cell-update scratch and then
the output gate, buffer0 reused for the tanh result) computes the same final
cell state, hidden state, output-gate value and cell-gate value as the same
six sub-steps run with fresh, non-aliased buffers: no live value is
overwritten before its last read. -/
theorem claim_C5_buffer_aliasing (prims : NonlinPrims) (m : LstmStepManager)
    (op_data : OpDataLSTM) (t : LstmTensors) (ks : KernelState) :
    (LstmStepInteger prims m op_data t ks).map
        (fun r => (r.cell_state, r.hidden_state, r.buffer1, r.buffer2)) =
      (LstmStepSixBuffers prims m op_data t ks.hidden_state ks.cell_state).map
        (fun r => (r.cell_state, r.hidden_state, r.output_gate, r.cell_gate)) := by
  rw [LstmStepInteger_eq]
  unfold LstmStepSixBuffers
  dsimp only
  cases hA : activationApply prims op_data.cell_gate_nonlinear_type
      (gateRawOutput op_data.size_info m op_data.cell_gate_parameters
        t.input_data t.input_to_cell_weights t.cell_gate_bias
        ks.hidden_state t.recurrent_to_cell_weights none) <;>
    simp [hA]

/-- One gate's pre-activation with the recurrent path written with the
bias-free projection — claim C10's reading of the step's gate wiring. -/
def gateRawNoRecurrentBias (sz : LstmSizeInfo) (step_info : LstmStepManager)
    (gate_params : GateParameters)
    (input : List Int) (input_weight : List (List Int)) (input_bias : Option (List Int))
    (recurrent : List Int) (recurrent_weight : List (List Int)) : List Int :=
  CwiseAdd
    (FullyConnectedGeneral gate_params.input_fc_params (stateBatch sz)
      sz.input_dimension sz.state_dimension (input.drop step_info.input_offset)
      input_weight input_bias)
    (FullyConnectedNoBias gate_params.recurrent_fc_params (stateBatch sz)
      sz.state_dimension sz.state_dimension (recurrent.drop step_info.hidden_state_offset)
      recurrent_weight)

theorem FullyConnectedGeneral_none (p : FullyConnectedParams)
    (n_batch input_depth output_depth : Nat) (input : List Int)
    (weights : List (List Int)) :
    FullyConnectedGeneral p n_batch input_depth output_depth input weights none =
      FullyConnectedNoBias p n_batch input_depth output_depth input weights := rfl

theorem gateRawOutput_none (sz : LstmSizeInfo) (step_info : LstmStepManager)
    (gate_params : GateParameters) (input : List Int) (input_weight : List (List Int))
    (input_bias : Option (List Int)) (recurrent : List Int)
    (recurrent_weight : List (List Int)) :
    gateRawOutput sz step_info gate_params input input_weight input_bias
        recurrent recurrent_weight none =
      gateRawNoRecurrentBias sz step_info gate_params input input_weight input_bias
        recurrent recurrent_weight := rfl

/-- Claim C10: the step passes a null recurrent bias to every one of the four
gate computations, so no gate's recurrent-path projection includes a bias
term: a projection with an absent bias equals the bias-free projection, the
step's final scratch buffer (the output gate's recurrent projection) is the
bias-free projection, the output gate is
`logistic(FC(input, w, b) + FC_nobias(recurrent, rw))`, and the final cell
and hidden states are computed from the four gates in exactly that bias-free
form. -/
theorem claim_C10_no_recurrent_bias :
    (∀ (p : FullyConnectedParams) (n_batch input_depth output_depth : Nat)
        (input : List Int) (weights : List (List Int)),
      FullyConnectedGeneral p n_batch input_depth output_depth input weights none =
        FullyConnectedNoBias p n_batch input_depth output_depth input weights)
    ∧ (∀ (prims : NonlinPrims) (m : LstmStepManager) (op_data : OpDataLSTM)
        (t : LstmTensors) (ks ks' : KernelState),
      LstmStepInteger prims m op_data t ks = some ks' →
        ks'.buffer3 = FullyConnectedNoBias op_data.output_gate_parameters.recurrent_fc_params
          (stateBatch op_data.size_info) op_data.size_info.state_dimension
          op_data.size_info.state_dimension
          (ks.hidden_state.drop m.hidden_state_offset) t.recurrent_to_output_weights
        ∧ ks'.buffer1 = prims.logistic (gateRawNoRecurrentBias op_data.size_info m
            op_data.output_gate_parameters t.input_data t.input_to_output_weights
            t.output_gate_bias ks.hidden_state t.recurrent_to_output_weights)
        ∧ ∃ cg, activationApply prims op_data.cell_gate_nonlinear_type
              (gateRawNoRecurrentBias op_data.size_info m op_data.cell_gate_parameters
                t.input_data t.input_to_cell_weights t.cell_gate_bias
                ks.hidden_state t.recurrent_to_cell_weights) = some cg
          ∧ ks'.cell_state =
              (UpdateLstmHiddenInteger prims op_data.size_info m
                (UpdateLstmCellInteger op_data.size_info m ks.cell_state
                  (prims.logistic (gateRawNoRecurrentBias op_data.size_info m
                    op_data.forget_gate_parameters t.input_data t.input_to_forget_weights
                    t.forget_gate_bias ks.hidden_state t.recurrent_to_forget_weights))
                  (prims.logistic (gateRawNoRecurrentBias op_data.size_info m
                    op_data.input_gate_parameters t.input_data t.input_to_input_weights
                    t.input_gate_bias ks.hidden_state t.recurrent_to_input_weights))
                  cg op_data.inter_gate_parameters.forget_cell_mul_params
                  op_data.inter_gate_parameters.input_mul_params
                  op_data.cell_state_info.quantized_cell_clip).1
                ks.hidden_state
                (prims.logistic (gateRawNoRecurrentBias op_data.size_info m
                  op_data.output_gate_parameters t.input_data t.input_to_output_weights
                  t.output_gate_bias ks.hidden_state t.recurrent_to_output_weights))
                op_data.inter_gate_parameters.output_mul_params
                op_data.cell_state_info.cell_state_scale_power).1
          ∧ ks'.hidden_state =
              (UpdateLstmHiddenInteger prims op_data.size_info m
                (UpdateLstmCellInteger op_data.size_info m ks.cell_state
                  (prims.logistic (gateRawNoRecurrentBias op_data.size_info m
                    op_data.forget_gate_parameters t.input_data t.input_to_forget_weights
                    t.forget_gate_bias ks.hidden_state t.recurrent_to_forget_weights))
                  (prims.logistic (gateRawNoRecurrentBias op_data.size_info m
                    op_data.input_gate_parameters t.input_data t.input_to_input_weights
                    t.input_gate_bias ks.hidden_state t.recurrent_to_input_weights))
                  cg op_data.inter_gate_parameters.forget_cell_mul_params
                  op_data.inter_gate_parameters.input_mul_params
                  op_data.cell_state_info.quantized_cell_clip).1
                ks.hidden_state
                (prims.logistic (gateRawNoRecurrentBias op_data.size_info m
                  op_data.output_gate_parameters t.input_data t.input_to_output_weights
                  t.output_gate_bias ks.hidden_state t.recurrent_to_output_weights))
                op_data.inter_gate_parameters.output_mul_params
                op_data.cell_state_info.cell_state_scale_power).2.1) := by
  refine ⟨fun _ _ _ _ _ _ => rfl, ?_⟩
  intro prims m op_data t ks ks' hstep
  rw [LstmStepInteger_eq] at hstep
  dsimp only at hstep
  rw [gateRawOutput_none, gateRawOutput_none, gateRawOutput_none, gateRawOutput_none,
    FullyConnectedGeneral_none] at hstep
  cases hA : activationApply prims op_data.cell_gate_nonlinear_type
      (gateRawNoRecurrentBias op_data.size_info m op_data.cell_gate_parameters
        t.input_data t.input_to_cell_weights t.cell_gate_bias
        ks.hidden_state t.recurrent_to_cell_weights) with
  | none =>
    rw [hA] at hstep
    simp at hstep
  | some cg =>
    rw [hA] at hstep
    simp only [Option.some.injEq] at hstep
    subst hstep
    exact ⟨rfl, rfl, cg, rfl, rfl, rfl⟩

theorem stateBatch_tm (sz : LstmSizeInfo) (h : sz.batch_size = 1) :
    stateBatch { sz with time_major := true } = stateBatch { sz with time_major := false } := by
  simp [stateBatch, h]

theorem UpdateTime_tm (sz : LstmSizeInfo) (m : LstmStepManager) (h : sz.batch_size = 1) :
    m.UpdateTime { sz with time_major := true } = m.UpdateTime { sz with time_major := false } := by
  simp [LstmStepManager.UpdateTime, h]

theorem gateRawOutput_tm (sz : LstmSizeInfo) (h : sz.batch_size = 1)
    (m : LstmStepManager) (gp : GateParameters) (input : List Int)
    (iw : List (List Int)) (ib : Option (List Int)) (rec : List Int)
    (rw : List (List Int)) (rb : Option (List Int)) :
    gateRawOutput { sz with time_major := true } m gp input iw ib rec rw rb =
      gateRawOutput { sz with time_major := false } m gp input iw ib rec rw rb := by
  unfold gateRawOutput
  rw [stateBatch_tm sz h]

theorem LstmStepInteger_tm (prims : NonlinPrims) (m : LstmStepManager)
    (op_data : OpDataLSTM) (t : LstmTensors) (ks : KernelState)
    (h : op_data.size_info.batch_size = 1) :
    LstmStepInteger prims m (setTimeMajor op_data true) t ks =
      LstmStepInteger prims m (setTimeMajor op_data false) t ks := by
  rw [LstmStepInteger_eq, LstmStepInteger_eq]
  dsimp only [setTimeMajor]
  rw [gateRawOutput_tm _ h, gateRawOutput_tm _ h, gateRawOutput_tm _ h,
    gateRawOutput_tm _ h, stateBatch_tm _ h]
  cases hA : activationApply prims op_data.cell_gate_nonlinear_type
      (gateRawOutput { op_data.size_info with time_major := false } m
        op_data.cell_gate_parameters t.input_data t.input_to_cell_weights
        t.cell_gate_bias ks.hidden_state t.recurrent_to_cell_weights none) with
  | none => rfl
  | some cg =>
    unfold UpdateLstmCellInteger UpdateLstmHiddenInteger stateFlatSize
    rw [stateBatch_tm _ h]

theorem evalLstmIteration_tm (prims : NonlinPrims) (op_data : OpDataLSTM)
    (t : LstmTensors) (m : LstmStepManager) (ks : KernelState)
    (h : op_data.size_info.batch_size = 1) :
    evalLstmIteration prims (setTimeMajor op_data true) t m ks =
      evalLstmIteration prims (setTimeMajor op_data false) t m ks := by
  unfold evalLstmIteration
  rw [LstmStepInteger_tm prims m op_data t ks h]
  cases LstmStepInteger prims m (setTimeMajor op_data false) t ks with
  | none => rfl
  | some ks1 =>
    dsimp only [setTimeMajor]
    rw [UpdateTime_tm _ _ h]

theorem evalTimeLoop_tm (prims : NonlinPrims) (op_data : OpDataLSTM)
    (t : LstmTensors) (h : op_data.size_info.batch_size = 1) :
    ∀ (n : Nat) (m : LstmStepManager) (ks : KernelState),
      evalTimeLoop prims (setTimeMajor op_data true) t n m ks =
        evalTimeLoop prims (setTimeMajor op_data false) t n m ks := by
  intro n
  induction n with
  | zero => intro m ks; rfl
  | succ k ih =>
    intro m ks
    unfold evalTimeLoop
    rw [evalLstmIteration_tm prims op_data t m ks h]
    cases evalLstmIteration prims (setTimeMajor op_data false) t m ks with
    | none => rfl
    | some r => exact ih r.1 r.2

/-- Claim C7: for batch size 1, running the sequence driver in time-major
and in batch-major mode over identical inputs, operator data and initial
state produces identical results — in particular identical output tensor
contents and identical final hidden and cell states. -/
theorem EvalLstmInteger_time_major (prims : NonlinPrims) (op_data : OpDataLSTM)
    (t : LstmTensors) (ks : KernelState) (h : op_data.size_info.time_major = true) :
    EvalLstmInteger prims op_data t ks =
      (evalTimeLoop prims op_data t op_data.size_info.time_steps {} ks).map
        (fun r => r.2) := by
  unfold EvalLstmInteger
  rw [if_pos h]

theorem EvalLstmInteger_batch_major (prims : NonlinPrims) (op_data : OpDataLSTM)
    (t : LstmTensors) (ks : KernelState) (h : op_data.size_info.time_major = false) :
    EvalLstmInteger prims op_data t ks =
      (evalBatchLoop prims op_data t op_data.size_info.batch_size {} ks).map
        (fun r => r.2) := by
  unfold EvalLstmInteger
  dsimp only
  rw [h]
  rfl

theorem claim_C7_time_major_equiv (prims : NonlinPrims) (op_data : OpDataLSTM)
    (t : LstmTensors) (ks : KernelState) (h : op_data.size_info.batch_size = 1) :
    EvalLstmInteger prims (setTimeMajor op_data true) t ks =
      EvalLstmInteger prims (setTimeMajor op_data false) t ks := by
  rw [EvalLstmInteger_time_major prims (setTimeMajor op_data true) t ks rfl,
    EvalLstmInteger_batch_major prims (setTimeMajor op_data false) t ks rfl]
  have hb : (setTimeMajor op_data false).size_info.batch_size = 1 := h
  rw [hb]
  rw [show (setTimeMajor op_data true).size_info.time_steps =
      (setTimeMajor op_data false).size_info.time_steps from rfl,
    evalTimeLoop_tm prims op_data t h]
  cases hE : evalTimeLoop prims (setTimeMajor op_data false) t
      (setTimeMajor op_data false).size_info.time_steps {} ks with
  | none => simp [evalBatchLoop, hE]
  | some r => simp [evalBatchLoop, hE]

theorem Int_log_two_three : Int.log 2 (3 : ℚ) = 1 := by
  rw [Int.log_of_one_le_right 2 (by norm_num : (1 : ℚ) ≤ 3)]
  have hf : ⌊(3 : ℚ)⌋₊ = 3 := by norm_num
  have hl : Nat.log 2 3 = 1 := Nat.log_eq_of_pow_le_of_lt_pow (by norm_num) (by norm_num)
  rw [hf, hl]
  norm_num

/-- Claim C8 fails on the staged code: the scale-power derivation of
`CreateLSTMKernelContent` (and of `TestHiddenStateUpdateQuantized`) calls
`CheckedLog2` and discards its boolean, so for the non-power-of-two
cell-state scale 3 it silently stores the rounded exponent 1 and proceeds —
there is no assertion halt (the derivation is a total function with no
failure path).  The first conjunct proves 3 is not an integer power of two,
the second that the primitive itself reports this, the third that the
derivation nevertheless produces an exponent. -/
theorem claim_C8_scale_power_no_assert :
    (∀ k : ℤ, (3 : ℚ) ≠ (2 : ℚ) ^ k)
    ∧ (CheckedLog2 3).2 = false
    ∧ CreateLSTMKernelContent_scale_power 3 = 1 := by
  have h1 : Int.log 2 (3 : ℚ) = 1 := Int_log_two_three
  refine ⟨?_, ?_, ?_⟩
  · intro k h
    have hk : Int.log 2 ((2 : ℚ) ^ k) = k := by
      simpa using Int.log_zpow (R := ℚ) (b := 2) (by norm_num) k
    rw [← h, h1] at hk
    subst hk
    norm_num at h
  · simp only [CheckedLog2, h1]
    rw [decide_eq_false_iff_not]
    norm_num
  · simp only [CreateLSTMKernelContent_scale_power, CheckedLog2]
    exact h1

/-- Identity stand-ins for the two nonlinear primitives, used to evaluate the
model on concrete inputs. -/
def idPrims : NonlinPrims := { logistic := fun v => v, tanhFn := fun _ v => v }

/-- Fully-connected parameters with a zero multiplier: every projection
output is 0. -/
def fcZero : FullyConnectedParams :=
  { input_offset := 0, output_multiplier := 0, output_shift := 0, output_offset := 0,
    quantized_activation_min := -32768, quantized_activation_max := 32767 }

/-- Gate parameters built from `fcZero`. -/
def gateZero : GateParameters := { input_fc_params := fcZero, recurrent_fc_params := fcZero }

/-- Multiply parameters passing through the second operand when the first is
0 (offset 1 on input 1, unit multiplier). -/
def mulCellPass : ArithmeticParams :=
  { input1_offset := 1, input2_offset := 0, output_offset := 0,
    output_multiplier := 2 ^ 31, output_shift := 0,
    quantized_activation_min := -32768, quantized_activation_max := 32767 }

/-- Multiply parameters with a zero multiplier: result 0. -/
def mulZero : ArithmeticParams :=
  { input1_offset := 0, input2_offset := 0, output_offset := 0,
    output_multiplier := 0, output_shift := 0,
    quantized_activation_min := -32768, quantized_activation_max := 32767 }

/-- Multiply parameters passing through the first operand when the second is
0 (offset 1 on input 2, unit multiplier). -/
def mulOutPass : ArithmeticParams :=
  { input1_offset := 0, input2_offset := 1, output_offset := 0,
    output_multiplier := 2 ^ 31, output_shift := 0,
    quantized_activation_min := -32768, quantized_activation_max := 32767 }

/-- Batch-major two-batch, one-step geometry. -/
def c6SizeInfo : LstmSizeInfo :=
  { time_major := false, batch_size := 2, time_steps := 1,
    input_dimension := 1, state_dimension := 1 }

/-- Inter-gate multiply parameters: forget path passes the cell value
through, input path contributes 0, output path passes the tanh value
through. -/
def c6Inter : InterGateParameters :=
  { forget_cell_mul_params := mulCellPass, input_mul_params := mulZero,
    output_mul_params := mulOutPass }

/-- Operator data exhibiting the output-copy bug. -/
def c6Op : OpDataLSTM :=
  { size_info := c6SizeInfo,
    forget_gate_parameters := gateZero, input_gate_parameters := gateZero,
    cell_gate_parameters := gateZero, output_gate_parameters := gateZero,
    inter_gate_parameters := c6Inter,
    cell_state_info := { cell_state_scale_power := -15, quantized_cell_clip := 0 },
    cell_gate_nonlinear_type := .kTfLiteActTanh }

/-- Zero weights and biases for a 1x1 gate over two batch elements. -/
def c6Tensors : LstmTensors :=
  { input_data := [0, 0], input_to_forget_weights := [[0]],
    input_to_input_weights := [[0]], input_to_cell_weights := [[0]],
    input_to_output_weights := [[0]], recurrent_to_forget_weights := [[0]],
    recurrent_to_input_weights := [[0]], recurrent_to_cell_weights := [[0]],
    recurrent_to_output_weights := [[0]], forget_gate_bias := some [0],
    input_gate_bias := some [0], cell_gate_bias := some [0],
    output_gate_bias := some [0] }

/-- Initial state: cell rows 8 and 16 (so the hidden rows become 1 and 2),
a 2-element output tensor. -/
def c6Init : KernelState :=
  { buffer0 := [0], buffer1 := [0], buffer2 := [0], buffer3 := [0],
    hidden_state := [10, 20], cell_state := [8, 16], output := [0, 0] }

/-- Claim C6 fails on the code (batch-major, batch size 2): the final hidden
state has rows 1 and 2, so a per-position copy would produce the output
tensor `[1, 2]`; the `memcpy` instead copies `batch_size * state_dimension`
elements from the start of the hidden tensor at every position, so the write
at position (batch 1, time 0) stores hidden row 0 at that position's offset
and runs one element past the end of the 2-element output tensor, leaving
`[1, 1, 2]`. -/
theorem claim_C6_output_copy_bug :
    (EvalLstmInteger idPrims c6Op c6Tensors c6Init).map
        (fun r => (r.output, r.hidden_state)) =
      some ([1, 1, 2], [1, 2]) := by
  rfl

/-- Batch-size-1, two-step geometry for the time-major/batch-major
equivalence witness. -/
def c7SizeInfo : LstmSizeInfo :=
  { time_major := false, batch_size := 1, time_steps := 2,
    input_dimension := 1, state_dimension := 1 }

/-- Operator data for the equivalence witness. -/
def c7Op : OpDataLSTM := { c6Op with size_info := c7SizeInfo }

/-- Initial state for one batch element over two steps. -/
def c7Init : KernelState :=
  { buffer0 := [0], buffer1 := [0], buffer2 := [0], buffer3 := [0],
    hidden_state := [10], cell_state := [8], output := [0, 0] }

/-- Witness for claim C7 at a concrete input. -/
theorem claim_C7_time_major_equiv_witness :
    EvalLstmInteger idPrims (setTimeMajor c7Op true) c6Tensors c7Init =
      EvalLstmInteger idPrims (setTimeMajor c7Op false) c6Tensors c7Init :=
  claim_C7_time_major_equiv idPrims c7Op c6Tensors c7Init rfl

end tflite
